import Mathlib

/-!
# Verification of the ponika API client

A shallow embedding of `src/ponika/__init__.py`, a typed HTTP client for a
router management API. The Python client keeps one mutable field (`self.auth`,
the cached bearer token) and issues HTTP requests through a `requests.Session`.

We model the network as an environment `Env : Nat → HttpResponse` giving the
response to the n-th request issued by the client, and thread the client's
mutable state (`auth`, plus a trace of issued requests used to state
properties about what was sent) explicitly. Python exceptions
(`requests.HTTPError`, `pydantic.ValidationError`, JSON decode errors) become
`Except PonikaError`. JSON bodies are a small inductive `Json` type and the
pydantic models become validators `Json → Except Unit α`, faithful to the
fields, requiredness, defaults and `Literal` constraints declared in source.
-/

set_option autoImplicit false

namespace Ponika

/-- Minimal JSON values, enough to express the request/response bodies the
client handles. An HTTP response whose body is not valid JSON is modelled as
`HttpResponse.body = none` below. -/
inductive Json where
  | null : Json
  | bool : Bool → Json
  | num : Int → Json
  | str : String → Json
  | obj : List (String × Json) → Json
  | arr : List Json → Json
deriving Repr

/-- Object field lookup (first binding wins, as in a Python dict built from
JSON). Non-objects have no fields. -/
def Json.getField : Json → String → Option Json
  | .obj fs, k => fs.lookup k
  | _, _ => none

/-- The errors the Python client can raise on a request:
`requests.HTTPError` from `Response.raise_for_status()` (carrying the status
code), `pydantic.ValidationError` from `model_validate`, and
`requests.exceptions.JSONDecodeError` from `Response.json()` on a body that is
not valid JSON. -/
inductive PonikaError where
  | httpError : Nat → PonikaError
  | validationError : PonikaError
  | jsonDecodeError : PonikaError
deriving Repr, DecidableEq

/-! ## Field validators (pydantic semantics for the field shapes used here) -/

/-- A required `str` field: present and a JSON string, else ValidationError. -/
def reqStr (j : Json) (k : String) : Except Unit String :=
  match j.getField k with
  | some (.str s) => .ok s
  | _ => .error ()

/-- A required `int` field: present and a JSON number, else ValidationError. -/
def reqInt (j : Json) (k : String) : Except Unit Int :=
  match j.getField k with
  | some (.num n) => .ok n
  | _ => .error ()

/-- A required `bool` field: present and a JSON boolean, else ValidationError. -/
def reqBool (j : Json) (k : String) : Except Unit Bool :=
  match j.getField k with
  | some (.bool b) => .ok b
  | _ => .error ()

/-- A required `Literal["0", "1"]` field: present, a string, and exactly
`"0"` or `"1"`; any other value (e.g. `"2"`) is a ValidationError. -/
def reqLit01 (j : Json) (k : String) : Except Unit String :=
  match j.getField k with
  | some (.str s) => if s = "0" ∨ s = "1" then .ok s else .error ()
  | _ => .error ()

/-- An `Optional[Literal["0", "1"]] = None` field: omitted or `null` gives the
default `none`; otherwise must be the string `"0"` or `"1"`. -/
def optLit01 (j : Json) (k : String) : Except Unit (Option String) :=
  match j.getField k with
  | none => .ok none
  | some .null => .ok none
  | some (.str s) => if s = "0" ∨ s = "1" then .ok (some s) else .error ()
  | some _ => .error ()

/-- An `Optional[str] = None` field: omitted or `null` gives `none`,
otherwise must be a string. -/
def optStr (j : Json) (k : String) : Except Unit (Option String) :=
  match j.getField k with
  | none => .ok none
  | some .null => .ok none
  | some (.str s) => .ok (some s)
  | some _ => .error ()

/-! ## Response data models (the pydantic `BaseModel` subclasses in source) -/

/-- `ApiResponse(BaseModel, Generic[T])`: `success: bool`, `data: None | T`. -/
structure ApiResponse (T : Type) where
  success : Bool
  data : Option T
deriving Repr, DecidableEq

/-- `ApiResponse[T].model_validate`: the body must be a JSON object with a
required boolean `success` and a required `data` that is `null` or validates
against the payload model `T` (pydantic ignores unknown extra fields). -/
def ApiResponse.model_validate {α : Type} (dataModel : Json → Except Unit α)
    (j : Json) : Except Unit (ApiResponse α) :=
  match j with
  | .obj _ => do
    let s ← reqBool j "success"
    let d ← match j.getField "data" with
      | some .null => Except.ok none
      | some dj => Except.map some (dataModel dj)
      | none => Except.error ()
    .ok ⟨s, d⟩
  | _ => .error ()

/-- `Token`: the cached credential, `token: str` and `expires_at: int`
(absolute Unix-seconds expiry instant). -/
structure Token where
  token : String
  expires_at : Int
deriving Repr, DecidableEq

/-- `PonikaClient.LoginResponseData`: `username: str`, `token: str`,
`expires: int`. -/
structure LoginResponseData where
  username : String
  token : String
  expires : Int
deriving Repr, DecidableEq

/-- Validator for `LoginResponseData`. -/
def LoginResponseData.model_validate (j : Json) : Except Unit LoginResponseData := do
  let u ← reqStr j "username"
  let t ← reqStr j "token"
  let e ← reqInt j "expires"
  .ok ⟨u, t, e⟩

/-- `PonikaClient.LogoutResponseData`: `response: str`. -/
structure LogoutResponseData where
  response : String
deriving Repr, DecidableEq

/-- Validator for `LogoutResponseData`. -/
def LogoutResponseData.model_validate (j : Json) : Except Unit LogoutResponseData := do
  let r ← reqStr j "response"
  .ok ⟨r⟩

/-- `SessionEndpoint.SessionResponseData`: `active: bool`. -/
structure SessionResponseData where
  active : Bool
deriving Repr, DecidableEq

/-- Validator for `SessionResponseData`. -/
def SessionResponseData.model_validate (j : Json) : Except Unit SessionResponseData := do
  let a ← reqBool j "active"
  .ok ⟨a⟩

/-- `GpsEndpoint.GetGlobalResponseData`: four required `Literal["0","1"]`
flags, two optional `Literal["0","1"]` fields and two optional strings, all
optionals defaulting to `None`. -/
structure GetGlobalResponseData where
  enabled : String
  galileo_sup : String
  glonass_sup : String
  beidou_sup : String
  dpo_enabled : Option String
  mode : Option String
  interval : Option String
  timeout : Option String
deriving Repr, DecidableEq

/-- Validator for `GetGlobalResponseData`. -/
def GetGlobalResponseData.model_validate (j : Json) :
    Except Unit GetGlobalResponseData := do
  let en ← reqLit01 j "enabled"
  let ga ← reqLit01 j "galileo_sup"
  let gl ← reqLit01 j "glonass_sup"
  let be ← reqLit01 j "beidou_sup"
  let dpo ← optLit01 j "dpo_enabled"
  let mode ← optLit01 j "mode"
  let iv ← optStr j "interval"
  let tmo ← optStr j "timeout"
  .ok ⟨en, ga, gl, be, dpo, mode, iv, tmo⟩

/-! ## Client construction (`PonikaClient.__init__`) -/

/-- The constructor parameters of `PonikaClient.__init__`: `host`, `username`,
`password`, `port` (default `443`), `use_tls` (default `True`). These are
immutable over the client's lifetime. -/
structure PonikaConfig where
  host : String
  username : String
  password : String
  port : Nat := 443
  use_tls : Bool := true
deriving Repr, DecidableEq

/-- `self.base_url = f"{'https' if use_tls else 'http'}://{host}:{port}/api"`. -/
def PonikaConfig.base_url (c : PonikaConfig) : String :=
  (if c.use_tls then "https" else "http") ++ "://" ++ c.host ++ ":" ++
    toString c.port ++ "/api"

/-! ## Transport model -/

/-- An HTTP response from the device: the status code and the body.
`body = none` models a body that is not valid JSON, on which
`Response.json()` raises a JSON decode error. -/
structure HttpResponse where
  status : Nat
  body : Option Json
deriving Repr

/-- What the client actually puts on the wire for one request: the method,
the full URL, the parameter map (query string for GET, JSON body for POST),
the `Authorization` header if one was attached, and the TLS-verification
flag passed to `requests` (`verify=False` in source). -/
structure HttpRequest where
  is_post : Bool
  url : String
  params : Option (List (String × Json))
  authorization : Option String
  verify : Bool
deriving Repr

/-- The network environment: the response the device returns to the n-th
request issued through the client's `requests.Session`. -/
abbrev Env := Nat → HttpResponse

/-- The client's mutable state: `self.auth` (the token cache, `None` =
`Empty`), plus the trace of requests issued so far (`trace`, oldest first)
and the number of requests issued (`nreq`, the index of the next request
into the environment). The trace and counter are ghost state used to state
properties about what was sent on the wire. -/
structure ClientState where
  auth : Option Token
  trace : List HttpRequest
  nreq : Nat
deriving Repr

/-- The state of a freshly constructed client: `self.auth = None`, no
requests issued yet. -/
def initState : ClientState := ⟨none, [], 0⟩

/-- The header dict `{"Authorization": f"Bearer {auth_token}"} if auth_token
else None`: Python truthiness means no header is attached when the token is
`None` (or the empty string). -/
def bearerHeader : Option String → Option String
  | some t => if t = "" then none else some ("Bearer " ++ t)
  | none => none

/-- Issuing one request through `self.request`: the device's reply is the
environment at the current request index; the request is appended to the
ghost trace. -/
def sendRequest (env : Env) (st : ClientState) (req : HttpRequest) :
    HttpResponse × ClientState :=
  (env st.nreq, { st with trace := st.trace ++ [req], nreq := st.nreq + 1 })

/-- `Response.raise_for_status()`: raises `requests.HTTPError` carrying the
status code on a client (4xx) or server (5xx) error status. -/
def raise_for_status (r : HttpResponse) : Except PonikaError Unit :=
  if 400 ≤ r.status then .error (.httpError r.status) else .ok ()

/-- `Response.json()`: the decoded JSON body, or a JSON decode error when
the body is not valid JSON. -/
def responseJson (r : HttpResponse) : Except PonikaError Json :=
  match r.body with
  | some j => .ok j
  | none => .error .jsonDecodeError

/-- The envelope validation step of `_get`/`_post`:
`ApiResponse[data_model].model_validate(response.json())`, with pydantic's
`ValidationError` mapped to `PonikaError.validationError`. -/
def validateBody {α : Type} (dataModel : Json → Except Unit α) (j : Json) :
    Except PonikaError (ApiResponse α) :=
  match ApiResponse.model_validate dataModel j with
  | .ok r => .ok r
  | .error _ => .error .validationError

/-- The body of `PonikaClient._get` from the line issuing the request
onwards, after `auth_token` has been resolved (line 76 of source resolves it
to `get_auth_token()` when `auth_required` else `None`; see `client_get`).
Mirrors source lines 78–87: issue the GET with `verify=False` and the bearer
header when a token is present, then `print(response.json())` — which
decodes the body and raises on non-JSON — then `raise_for_status()`, then
validate the envelope. -/
def getWithToken {α : Type} (env : Env) (cfg : PonikaConfig) (st : ClientState)
    (endpoint : String) (dataModel : Json → Except Unit α)
    (params : Option (List (String × Json))) (auth_token : Option String) :
    Except PonikaError (ApiResponse α) × ClientState :=
  let req : HttpRequest :=
    ⟨false, cfg.base_url ++ endpoint, params, bearerHeader auth_token, false⟩
  let (resp, st1) := sendRequest env st req
  match responseJson resp with
  | .error e => (.error e, st1)
  | .ok j =>
    match raise_for_status resp with
    | .error e => (.error e, st1)
    | .ok _ => (validateBody dataModel j, st1)

/-- The body of `PonikaClient._post` from the line issuing the request
onwards, after `auth_token` has been resolved (see `client_post`). Mirrors
source lines 100–108: issue the POST with `verify=False` and the bearer
header when a token is present, then `raise_for_status()` — note: unlike
`_get`, before any decoding of the body — then decode and validate the
envelope. -/
def postWithToken {α : Type} (env : Env) (cfg : PonikaConfig) (st : ClientState)
    (endpoint : String) (dataModel : Json → Except Unit α)
    (params : Option (List (String × Json))) (auth_token : Option String) :
    Except PonikaError (ApiResponse α) × ClientState :=
  let req : HttpRequest :=
    ⟨true, cfg.base_url ++ endpoint, params, bearerHeader auth_token, false⟩
  let (resp, st1) := sendRequest env st req
  match raise_for_status resp with
  | .error e => (.error e, st1)
  | .ok _ =>
    match responseJson resp with
    | .error e => (.error e, st1)
    | .ok j => (validateBody dataModel j, st1)

/-! ## Login and the token cache (`PonikaClient.login` / `get_auth_token`) -/

/-- `PonikaClient.login(username, password)`: a `_post` to `/login` with the
credentials in the JSON body and `auth_required=False` — so the resolved
`auth_token` is `None` and no token lookup happens. -/
def login (env : Env) (cfg : PonikaConfig) (st : ClientState)
    (username password : String) :
    Except PonikaError (ApiResponse LoginResponseData) × ClientState :=
  postWithToken env cfg st "/login" LoginResponseData.model_validate
    (some [("username", .str username), ("password", .str password)]) none

/-- The cache-miss fall-through of `get_auth_token` (source lines 53–65):
call `login` with the stored credentials; if it raises, the exception
propagates (leaving `self.auth` untouched); otherwise set
`self.auth = Token(token=data.token, expires_at=int(time()) + data.expires)
if auth_response.success and auth_response.data else None` and return
`self.auth.token if self.auth else None`. -/
def refresh_auth (env : Env) (now : Int) (cfg : PonikaConfig)
    (st : ClientState) : Except PonikaError (Option String) × ClientState :=
  match login env cfg st cfg.username cfg.password with
  | (.error e, st1) => (.error e, st1)
  | (.ok r, st1) =>
    let newAuth : Option Token :=
      if r.success then
        match r.data with
        | some d => some ⟨d.token, now + d.expires⟩
        | none => none
      else none
    (.ok (match newAuth with | some t => some t.token | none => none),
      { st1 with auth := newAuth })

/-- `PonikaClient.get_auth_token` (source lines 48–65): if
`self.auth and self.auth.expires_at > int(time())`, return the cached token
with no network call; otherwise refresh via `login`. `now` is the value of
`int(time())` during the call. -/
def get_auth_token (env : Env) (now : Int) (cfg : PonikaConfig)
    (st : ClientState) : Except PonikaError (Option String) × ClientState :=
  match st.auth with
  | some a =>
    if now < a.expires_at then (.ok (some a.token), st)
    else refresh_auth env now cfg st
  | none => refresh_auth env now cfg st

/-- `PonikaClient._get`: resolve `auth_token = get_auth_token() if
auth_required else None` (an exception from the token lookup propagates),
then perform the GET (see `getWithToken`). -/
def client_get {α : Type} (env : Env) (now : Int) (cfg : PonikaConfig)
    (st : ClientState) (endpoint : String) (dataModel : Json → Except Unit α)
    (params : Option (List (String × Json))) (auth_required : Bool) :
    Except PonikaError (ApiResponse α) × ClientState :=
  match (if auth_required then get_auth_token env now cfg st
         else (.ok none, st)) with
  | (.error e, st1) => (.error e, st1)
  | (.ok tok, st1) => getWithToken env cfg st1 endpoint dataModel params tok

/-- `PonikaClient._post`: resolve the token the same way, then perform the
POST (see `postWithToken`). -/
def client_post {α : Type} (env : Env) (now : Int) (cfg : PonikaConfig)
    (st : ClientState) (endpoint : String) (dataModel : Json → Except Unit α)
    (params : Option (List (String × Json))) (auth_required : Bool) :
    Except PonikaError (ApiResponse α) × ClientState :=
  match (if auth_required then get_auth_token env now cfg st
         else (.ok none, st)) with
  | (.error e, st1) => (.error e, st1)
  | (.ok tok, st1) => postWithToken env cfg st1 endpoint dataModel params tok

/-! ## Endpoint methods used by the claims -/

/-- `PonikaClient.logout()`: `_post("/logout", LogoutResponseData)` with the
default `auth_required=True`. -/
def logout (env : Env) (now : Int) (cfg : PonikaConfig) (st : ClientState) :
    Except PonikaError (ApiResponse LogoutResponseData) × ClientState :=
  client_post env now cfg st "/logout" LogoutResponseData.model_validate
    none true

namespace SessionEndpoint

/-- `SessionEndpoint.get_status()`: `_get("/session/status",
SessionResponseData)` with the default `auth_required=True`. -/
def get_status (env : Env) (now : Int) (cfg : PonikaConfig)
    (st : ClientState) :
    Except PonikaError (ApiResponse SessionResponseData) × ClientState :=
  client_get env now cfg st "/session/status"
    SessionResponseData.model_validate none true

end SessionEndpoint

namespace GpsEndpoint

/-- `GpsEndpoint.get_global()`: `_get("/gps/global", GetGlobalResponseData)`
with the default `auth_required=True`. -/
def get_global (env : Env) (now : Int) (cfg : PonikaConfig)
    (st : ClientState) :
    Except PonikaError (ApiResponse GetGlobalResponseData) × ClientState :=
  client_get env now cfg st "/gps/global"
    GetGlobalResponseData.model_validate none true

end GpsEndpoint

/-! ## Derived request descriptions and fixtures -/

/-- The wire request a `_get` issues for a given endpoint, parameter map and
resolved token. -/
def getRequest (cfg : PonikaConfig) (endpoint : String)
    (params : Option (List (String × Json))) (tok : Option String) :
    HttpRequest :=
  ⟨false, cfg.base_url ++ endpoint, params, bearerHeader tok, false⟩

/-- The wire request a `_post` issues. -/
def postRequest (cfg : PonikaConfig) (endpoint : String)
    (params : Option (List (String × Json))) (tok : Option String) :
    HttpRequest :=
  ⟨true, cfg.base_url ++ endpoint, params, bearerHeader tok, false⟩

/-- The wire request `login` issues: a POST to `/login` with the credentials
in the body and no `Authorization` header. -/
def loginRequest (cfg : PonikaConfig) : HttpRequest :=
  postRequest cfg "/login"
    (some [("username", .str cfg.username), ("password", .str cfg.password)])
    none

/-- The cache-hit test of `get_auth_token`:
`self.auth and self.auth.expires_at > int(time())`. -/
def cacheHit (st : ClientState) (now : Int) : Bool :=
  match st.auth with
  | some a => decide (now < a.expires_at)
  | none => false

/-- A sample client configuration with the default port and TLS flag. -/
def sampleCfg : PonikaConfig :=
  { host := "router", username := "admin", password := "pw" }

/-- A login envelope `{"success": false, "data": null}`. -/
def loginFailBody : Json := .obj [("success", .bool false), ("data", .null)]

/-- A successful login envelope for user `"a"` with token `"T1"` and
`expires` 3600. -/
def loginOkBody : Json :=
  .obj [("success", .bool true),
        ("data", .obj [("username", .str "a"), ("token", .str "T1"),
                       ("expires", .num 3600)])]

/-- A successful session-status envelope. -/
def sessionOkBody : Json :=
  .obj [("success", .bool true), ("data", .obj [("active", .bool true)])]

/-- A session-status envelope with `success=false` and a payload. -/
def sessionFailBody : Json :=
  .obj [("success", .bool false), ("data", .obj [("active", .bool false)])]

/-- A successful logout envelope. -/
def logoutOkBody : Json :=
  .obj [("success", .bool true), ("data", .obj [("response", .str "ok")])]

/-- A GPS global payload with the four flags present, `enabled="1"`, and
every optional field (in particular `dpo_enabled`) omitted. -/
def gpsGlobalSampleBody : Json :=
  .obj [("enabled", .str "1"), ("galileo_sup", .str "0"),
        ("glonass_sup", .str "0"), ("beidou_sup", .str "1")]

/-- An environment whose first reply is a `success=false, data=null` login
envelope and whose second reply is a successful session-status envelope. -/
def envLoginRejected : Env := fun n =>
  if n = 0 then ⟨200, some loginFailBody⟩ else ⟨200, some sessionOkBody⟩

/-- An environment that replies 404 with a non-JSON body to every request. -/
def envHtml404 : Env := fun _ => ⟨404, none⟩

/-- An environment that replies 500 with a JSON body to every request. -/
def envServerError : Env := fun _ => ⟨500, some .null⟩

/-- An environment whose first reply is a successful login and whose second
reply is a successful logout envelope. -/
def envLoginThenLogout : Env := fun n =>
  if n = 0 then ⟨200, some loginOkBody⟩ else ⟨200, some logoutOkBody⟩

/-- An environment that always replies with a successful login envelope. -/
def envLoginOk : Env := fun _ => ⟨200, some loginOkBody⟩

/-- A successful login envelope for user `"b"` with a fresh token `"T2"`
and `expires` 3600. -/
def loginT2Body : Json :=
  .obj [("success", .bool true),
        ("data", .obj [("username", .str "b"), ("token", .str "T2"),
                       ("expires", .num 3600)])]

/-- An environment that always replies with the `"T2"` login envelope. -/
def envLoginT2 : Env := fun _ => ⟨200, some loginT2Body⟩

/-- An environment that replies with a `success=false` session envelope. -/
def envSessionFail : Env := fun _ => ⟨200, some sessionFailBody⟩

/-- A client state holding a cached token `"TOK"` that expires at instant
100. -/
def stateWithToken : ClientState := ⟨some ⟨"TOK", 100⟩, [], 0⟩

/-- A client state holding a cached token `"T1"` that expires at instant
3600 (as produced by a login with `expires=3600` at time 0). -/
def stateT1 : ClientState := ⟨some ⟨"T1", 3600⟩, [], 0⟩

/-- A client state holding a stale token `"OLD"` that expired at instant
10. -/
def stateStale : ClientState := ⟨some ⟨"OLD", 10⟩, [], 0⟩

/-! ## Structural lemmas about the transport -/

theorem getWithToken_state {α : Type} (env : Env) (cfg : PonikaConfig)
    (st : ClientState) (endpoint : String) (dm : Json → Except Unit α)
    (params : Option (List (String × Json))) (tok : Option String) :
    (getWithToken env cfg st endpoint dm params tok).2 =
      { st with trace := st.trace ++ [getRequest cfg endpoint params tok],
                nreq := st.nreq + 1 } := by
  unfold getWithToken sendRequest getRequest
  dsimp only
  split
  · rfl
  · split <;> rfl

theorem postWithToken_state {α : Type} (env : Env) (cfg : PonikaConfig)
    (st : ClientState) (endpoint : String) (dm : Json → Except Unit α)
    (params : Option (List (String × Json))) (tok : Option String) :
    (postWithToken env cfg st endpoint dm params tok).2 =
      { st with trace := st.trace ++ [postRequest cfg endpoint params tok],
                nreq := st.nreq + 1 } := by
  unfold postWithToken sendRequest postRequest
  dsimp only
  split
  · rfl
  · split <;> rfl

theorem postWithToken_result_http_error {α : Type} (env : Env)
    (cfg : PonikaConfig) (st : ClientState) (endpoint : String)
    (dm : Json → Except Unit α) (params : Option (List (String × Json)))
    (tok : Option String) (h : 400 ≤ (env st.nreq).status) :
    (postWithToken env cfg st endpoint dm params tok).1 =
      .error (.httpError (env st.nreq).status) := by
  unfold postWithToken sendRequest raise_for_status
  dsimp only
  rw [if_pos h]

theorem getWithToken_result_nonjson {α : Type} (env : Env)
    (cfg : PonikaConfig) (st : ClientState) (endpoint : String)
    (dm : Json → Except Unit α) (params : Option (List (String × Json)))
    (tok : Option String) (h : (env st.nreq).body = none) :
    (getWithToken env cfg st endpoint dm params tok).1 =
      .error .jsonDecodeError := by
  unfold getWithToken sendRequest responseJson
  dsimp only
  rw [h]

theorem getWithToken_result_http_error {α : Type} (env : Env)
    (cfg : PonikaConfig) (st : ClientState) (endpoint : String)
    (dm : Json → Except Unit α) (params : Option (List (String × Json)))
    (tok : Option String) (j : Json) (hb : (env st.nreq).body = some j)
    (h : 400 ≤ (env st.nreq).status) :
    (getWithToken env cfg st endpoint dm params tok).1 =
      .error (.httpError (env st.nreq).status) := by
  unfold getWithToken sendRequest responseJson raise_for_status
  dsimp only
  rw [hb, if_pos h]

theorem getWithToken_result_ok {α : Type} (env : Env)
    (cfg : PonikaConfig) (st : ClientState) (endpoint : String)
    (dm : Json → Except Unit α) (params : Option (List (String × Json)))
    (tok : Option String) (j : Json) (hb : (env st.nreq).body = some j)
    (h : (env st.nreq).status < 400) :
    (getWithToken env cfg st endpoint dm params tok).1 =
      validateBody dm j := by
  unfold getWithToken sendRequest responseJson raise_for_status
  dsimp only
  rw [hb, if_neg (by omega)]

theorem postWithToken_result_ok {α : Type} (env : Env)
    (cfg : PonikaConfig) (st : ClientState) (endpoint : String)
    (dm : Json → Except Unit α) (params : Option (List (String × Json)))
    (tok : Option String) (j : Json) (hb : (env st.nreq).body = some j)
    (h : (env st.nreq).status < 400) :
    (postWithToken env cfg st endpoint dm params tok).1 =
      validateBody dm j := by
  unfold postWithToken sendRequest responseJson raise_for_status
  dsimp only
  rw [if_neg (by omega), hb]

theorem login_state (env : Env) (cfg : PonikaConfig) (st : ClientState) :
    (login env cfg st cfg.username cfg.password).2 =
      { st with trace := st.trace ++ [loginRequest cfg],
                nreq := st.nreq + 1 } := by
  unfold login loginRequest
  exact postWithToken_state env cfg st "/login"
    LoginResponseData.model_validate _ none

/-- `login` never touches the token cache: only `get_auth_token` writes
`self.auth`. -/
theorem login_auth (env : Env) (cfg : PonikaConfig) (st : ClientState)
    (u p : String) : (login env cfg st u p).2.auth = st.auth := by
  unfold login
  rw [postWithToken_state]

/-! ## Lemmas about the token cache -/

theorem get_auth_token_hit (env : Env) (now : Int) (cfg : PonikaConfig)
    (st : ClientState) (a : Token) (ha : st.auth = some a)
    (hv : now < a.expires_at) :
    get_auth_token env now cfg st = (.ok (some a.token), st) := by
  unfold get_auth_token
  rw [ha]
  dsimp only
  rw [if_pos hv]

theorem get_auth_token_miss (env : Env) (now : Int) (cfg : PonikaConfig)
    (st : ClientState) (h : cacheHit st now = false) :
    get_auth_token env now cfg st = refresh_auth env now cfg st := by
  unfold get_auth_token
  unfold cacheHit at h
  cases hst : st.auth with
  | none => rfl
  | some a =>
    rw [hst] at h
    dsimp only
    rw [if_neg (by simpa using h)]

/-- When `login` raises, `refresh_auth` propagates the exception and the
cache is left as it was (`login` does not write `self.auth`). -/
theorem refresh_auth_error (env : Env) (now : Int) (cfg : PonikaConfig)
    (st : ClientState) (e : PonikaError) (st1 : ClientState)
    (h : login env cfg st cfg.username cfg.password = (.error e, st1)) :
    refresh_auth env now cfg st = (.error e, st1) := by
  unfold refresh_auth
  rw [h]

/-- When `login` returns an envelope that is not a success with data, the
cache is set to `Empty` (`self.auth = None`) and `None` is returned. -/
theorem refresh_auth_envelope_fail (env : Env) (now : Int)
    (cfg : PonikaConfig) (st : ClientState)
    (r : ApiResponse LoginResponseData) (st1 : ClientState)
    (h : login env cfg st cfg.username cfg.password = (.ok r, st1))
    (hfail : r.success = false ∨ r.data = none) :
    refresh_auth env now cfg st = (.ok none, { st1 with auth := none }) := by
  unfold refresh_auth
  rw [h]
  dsimp only
  rcases hfail with hs | hd
  · rw [hs]
    rfl
  · rw [hd]
    cases r.success <;> rfl

/-- When `login` returns a success envelope with data, the cache is set to
the fresh token with absolute expiry `now + expires`. -/
theorem refresh_auth_success (env : Env) (now : Int) (cfg : PonikaConfig)
    (st : ClientState) (r : ApiResponse LoginResponseData)
    (st1 : ClientState) (d : LoginResponseData)
    (h : login env cfg st cfg.username cfg.password = (.ok r, st1))
    (hs : r.success = true) (hd : r.data = some d) :
    refresh_auth env now cfg st =
      (.ok (some d.token),
        { st1 with auth := some ⟨d.token, now + d.expires⟩ }) := by
  unfold refresh_auth
  rw [h]
  dsimp only
  rw [hs, hd]
  rfl

/-- Whatever `login` returns, `refresh_auth` has issued exactly one request,
the login request, and bumped the request counter once. -/
theorem refresh_auth_state (env : Env) (now : Int) (cfg : PonikaConfig)
    (st : ClientState) :
    ∃ A, (refresh_auth env now cfg st).2 =
      { auth := A, trace := st.trace ++ [loginRequest cfg],
        nreq := st.nreq + 1 } := by
  have hstate := login_state env cfg st
  unfold refresh_auth
  rcases hl : login env cfg st cfg.username cfg.password with ⟨res, st1⟩
  rw [hl] at hstate
  simp only at hstate
  cases res with
  | error e =>
    exact ⟨st.auth, by rw [hstate]⟩
  | ok r =>
    refine ⟨if r.success then
        match r.data with
        | some d => some ⟨d.token, now + d.expires⟩
        | none => none
      else none, ?_⟩
    dsimp only
    rw [hstate]

/-- `get_auth_token` issues either no request (cache hit) or exactly the
login request. -/
theorem get_auth_token_state (env : Env) (now : Int) (cfg : PonikaConfig)
    (st : ClientState) :
    (get_auth_token env now cfg st).2 = st ∨
    ∃ A, (get_auth_token env now cfg st).2 =
      { auth := A, trace := st.trace ++ [loginRequest cfg],
        nreq := st.nreq + 1 } := by
  unfold get_auth_token
  cases hst : st.auth with
  | none => exact .inr (refresh_auth_state env now cfg st)
  | some a =>
    dsimp only
    by_cases hv : now < a.expires_at
    · rw [if_pos hv]
      exact .inl rfl
    · rw [if_neg hv]
      exact .inr (refresh_auth_state env now cfg st)

/-- Every request present after a `_get` call was either already in the
trace, or has TLS verification disabled. -/
theorem client_get_trace_mem {α : Type} (env : Env) (now : Int)
    (cfg : PonikaConfig) (st : ClientState) (endpoint : String)
    (dm : Json → Except Unit α) (params : Option (List (String × Json)))
    (ar : Bool) (r : HttpRequest)
    (hr : r ∈ (client_get env now cfg st endpoint dm params ar).2.trace) :
    r ∈ st.trace ∨ r.verify = false := by
  unfold client_get at hr
  rcases ht : (if ar then get_auth_token env now cfg st
               else (.ok none, st)) with ⟨res, st1⟩
  have hst1 : st1 = st ∨
      ∃ A, st1 = { auth := A, trace := st.trace ++ [loginRequest cfg],
                   nreq := st.nreq + 1 } := by
    cases ar with
    | false =>
      have ht' : ((.ok none, st) :
          Except PonikaError (Option String) × ClientState) = (res, st1) := ht
      exact .inl (congrArg Prod.snd ht').symm
    | true =>
      have ht' : get_auth_token env now cfg st = (res, st1) := ht
      have := get_auth_token_state env now cfg st
      rw [ht'] at this
      exact this
  have hmem1 : ∀ x ∈ st1.trace, x ∈ st.trace ∨ x.verify = false := by
    intro x hx
    rcases hst1 with h | ⟨A, h⟩
    · rw [h] at hx
      exact .inl hx
    · rw [h] at hx
      simp only [List.mem_append, List.mem_singleton] at hx
      rcases hx with hx | hx
      · exact .inl hx
      · subst hx
        exact .inr rfl
  rw [ht] at hr
  cases res with
  | error e => exact hmem1 r hr
  | ok tok =>
    dsimp only at hr
    rw [getWithToken_state] at hr
    simp only [List.mem_append, List.mem_singleton] at hr
    rcases hr with hr | hr
    · exact hmem1 r hr
    · subst hr
      exact .inr rfl

/-- Every request present after a `_post` call was either already in the
trace, or has TLS verification disabled. -/
theorem client_post_trace_mem {α : Type} (env : Env) (now : Int)
    (cfg : PonikaConfig) (st : ClientState) (endpoint : String)
    (dm : Json → Except Unit α) (params : Option (List (String × Json)))
    (ar : Bool) (r : HttpRequest)
    (hr : r ∈ (client_post env now cfg st endpoint dm params ar).2.trace) :
    r ∈ st.trace ∨ r.verify = false := by
  unfold client_post at hr
  rcases ht : (if ar then get_auth_token env now cfg st
               else (.ok none, st)) with ⟨res, st1⟩
  have hst1 : st1 = st ∨
      ∃ A, st1 = { auth := A, trace := st.trace ++ [loginRequest cfg],
                   nreq := st.nreq + 1 } := by
    cases ar with
    | false =>
      have ht' : ((.ok none, st) :
          Except PonikaError (Option String) × ClientState) = (res, st1) := ht
      exact .inl (congrArg Prod.snd ht').symm
    | true =>
      have ht' : get_auth_token env now cfg st = (res, st1) := ht
      have := get_auth_token_state env now cfg st
      rw [ht'] at this
      exact this
  have hmem1 : ∀ x ∈ st1.trace, x ∈ st.trace ∨ x.verify = false := by
    intro x hx
    rcases hst1 with h | ⟨A, h⟩
    · rw [h] at hx
      exact .inl hx
    · rw [h] at hx
      simp only [List.mem_append, List.mem_singleton] at hx
      rcases hx with hx | hx
      · exact .inl hx
      · subst hx
        exact .inr rfl
  rw [ht] at hr
  cases res with
  | error e => exact hmem1 r hr
  | ok tok =>
    dsimp only at hr
    rw [postWithToken_state] at hr
    simp only [List.mem_append, List.mem_singleton] at hr
    rcases hr with hr | hr
    · exact hmem1 r hr
    · subst hr
      exact .inr rfl

/-- On a cache miss, `_get` with `auth_required=True` first refreshes the
token and then performs the GET with whatever that lookup produced. -/
theorem client_get_miss {α : Type} (env : Env) (now : Int)
    (cfg : PonikaConfig) (st : ClientState) (endpoint : String)
    (dm : Json → Except Unit α) (params : Option (List (String × Json)))
    (hmiss : cacheHit st now = false) :
    client_get env now cfg st endpoint dm params true =
      match refresh_auth env now cfg st with
      | (.error e, st1) => (.error e, st1)
      | (.ok tok, st1) => getWithToken env cfg st1 endpoint dm params tok := by
  unfold client_get
  rw [if_pos rfl, get_auth_token_miss env now cfg st hmiss]

/-- On a cache hit, `_get` with `auth_required=True` performs the GET with
the cached token and the cache is untouched. -/
theorem client_get_hit {α : Type} (env : Env) (now : Int)
    (cfg : PonikaConfig) (st : ClientState) (endpoint : String)
    (dm : Json → Except Unit α) (params : Option (List (String × Json)))
    (a : Token) (ha : st.auth = some a) (hv : now < a.expires_at) :
    client_get env now cfg st endpoint dm params true =
      getWithToken env cfg st endpoint dm params (some a.token) := by
  unfold client_get
  rw [if_pos rfl, get_auth_token_hit env now cfg st a ha hv]

/-- On a cache miss, `_post` with `auth_required=True` first refreshes the
token and then performs the POST with whatever that lookup produced. -/
theorem client_post_miss {α : Type} (env : Env) (now : Int)
    (cfg : PonikaConfig) (st : ClientState) (endpoint : String)
    (dm : Json → Except Unit α) (params : Option (List (String × Json)))
    (hmiss : cacheHit st now = false) :
    client_post env now cfg st endpoint dm params true =
      match refresh_auth env now cfg st with
      | (.error e, st1) => (.error e, st1)
      | (.ok tok, st1) => postWithToken env cfg st1 endpoint dm params tok := by
  unfold client_post
  rw [if_pos rfl, get_auth_token_miss env now cfg st hmiss]

/-- On a cache hit, `_post` with `auth_required=True` performs the POST with
the cached token and the cache is untouched. -/
theorem client_post_hit {α : Type} (env : Env) (now : Int)
    (cfg : PonikaConfig) (st : ClientState) (endpoint : String)
    (dm : Json → Except Unit α) (params : Option (List (String × Json)))
    (a : Token) (ha : st.auth = some a) (hv : now < a.expires_at) :
    client_post env now cfg st endpoint dm params true =
      postWithToken env cfg st endpoint dm params (some a.token) := by
  unfold client_post
  rw [if_pos rfl, get_auth_token_hit env now cfg st a ha hv]

/-! ## Claim C6 -/

/-- C6: parsing a GPS global payload with `enabled="1"` and the
`dpo_enabled` field omitted succeeds and yields `dpo_enabled = none`, while
any payload whose `enabled` field is the string `"2"` fails validation,
because the field is constrained to the literal strings `"0"` and `"1"`. -/
theorem C6_gps_global_literal_validation :
    GetGlobalResponseData.model_validate gpsGlobalSampleBody =
      .ok ⟨"1", "0", "0", "1", none, none, none, none⟩ ∧
    ∀ j : Json, j.getField "enabled" = some (.str "2") →
      GetGlobalResponseData.model_validate j = .error () := by
  refine ⟨rfl, ?_⟩
  intro j hj
  unfold GetGlobalResponseData.model_validate reqLit01
  rw [hj]
  rfl

/-- Witness for `C6_gps_global_literal_validation` at the concrete payload
`{"enabled": "2"}`. -/
theorem C6_gps_global_literal_validation_witness :
    GetGlobalResponseData.model_validate gpsGlobalSampleBody =
      .ok ⟨"1", "0", "0", "1", none, none, none, none⟩ ∧
    GetGlobalResponseData.model_validate
      (Json.obj [("enabled", Json.str "2")]) = .error () :=
  ⟨C6_gps_global_literal_validation.1,
   C6_gps_global_literal_validation.2
     (Json.obj [("enabled", Json.str "2")]) rfl⟩

/-! ## Claim C7 -/

/-- C7: for every host, username and password, construction with
`use_tls=false, port=8080` yields base URL `http://host:8080/api`, and
construction with the defaults (`port=443`, `use_tls=true`) yields
`https://host:443/api`. -/
theorem C7_base_url (host username password : String) :
    ({ host := host, username := username, password := password,
       port := 8080, use_tls := false } : PonikaConfig).base_url =
      "http://" ++ host ++ ":8080/api" ∧
    ({ host := host, username := username, password := password } :
        PonikaConfig).base_url =
      "https://" ++ host ++ ":443/api" := by
  constructor <;>
  · unfold PonikaConfig.base_url
    apply String.ext
    simp [String.data_append]
    rfl

/-! ## Claim C8 -/

/-- C8: every HTTP request the client issues — GET or POST, authenticated
or not, including the login a token refresh performs — is sent with TLS
certificate verification disabled (`verify=False`). Stated as trace
preservation: if every previously issued request had verification disabled,
the same holds after any `_get` or `_post` call. -/
theorem C8_tls_verification_disabled {α : Type} (env : Env) (now : Int)
    (cfg : PonikaConfig) (st : ClientState) (endpoint : String)
    (dm : Json → Except Unit α) (params : Option (List (String × Json)))
    (ar : Bool) (hst : ∀ r ∈ st.trace, r.verify = false) :
    (∀ r ∈ (client_get env now cfg st endpoint dm params ar).2.trace,
      r.verify = false) ∧
    (∀ r ∈ (client_post env now cfg st endpoint dm params ar).2.trace,
      r.verify = false) := by
  constructor
  · intro r hr
    rcases client_get_trace_mem env now cfg st endpoint dm params ar r hr
      with h | h
    · exact hst r h
    · exact h
  · intro r hr
    rcases client_post_trace_mem env now cfg st endpoint dm params ar r hr
      with h | h
    · exact hst r h
    · exact h

/-- Witness for `C8_tls_verification_disabled`: a fresh client (empty
trace) performing an authenticated session-status call. -/
theorem C8_tls_verification_disabled_witness :
    (∀ r ∈ (client_get envLoginOk 0 sampleCfg initState "/session/status"
        SessionResponseData.model_validate none true).2.trace,
      r.verify = false) ∧
    (∀ r ∈ (client_post envLoginOk 0 sampleCfg initState "/session/status"
        SessionResponseData.model_validate none true).2.trace,
      r.verify = false) :=
  C8_tls_verification_disabled envLoginOk 0 sampleCfg initState
    "/session/status" SessionResponseData.model_validate none true
    (by intro r hr; cases hr)

/-! ## Claim C5 -/

/-- C5: an endpoint `_get` with `auth_required=True` made while no valid
token is cached issues exactly one login request before the endpoint's
request: the trace gains first the login request — a POST sent without an
`Authorization` header, so it triggers no further token lookup — and then
at most the single endpoint GET, which is not itself a login POST. -/
theorem C5_exactly_one_login {α : Type} (env : Env) (now : Int)
    (cfg : PonikaConfig) (st : ClientState) (endpoint : String)
    (dm : Json → Except Unit α) (params : Option (List (String × Json)))
    (hmiss : cacheHit st now = false) :
    ((client_get env now cfg st endpoint dm params true).2.trace =
        st.trace ++ [loginRequest cfg] ∨
      ∃ tok, (client_get env now cfg st endpoint dm params true).2.trace =
        st.trace ++ [loginRequest cfg, getRequest cfg endpoint params tok]) ∧
    (loginRequest cfg).authorization = none ∧
    (loginRequest cfg).is_post = true ∧
    ∀ tok, (getRequest cfg endpoint params tok).is_post = false := by
  refine ⟨?_, rfl, rfl, fun tok => rfl⟩
  rw [client_get_miss env now cfg st endpoint dm params hmiss]
  obtain ⟨A, hA⟩ := refresh_auth_state env now cfg st
  rcases hrl : refresh_auth env now cfg st with ⟨res, st1⟩
  rw [hrl] at hA
  simp only at hA
  cases res with
  | error e =>
    dsimp only
    rw [hA]
    exact .inl rfl
  | ok tok =>
    dsimp only
    rw [getWithToken_state, hA]
    exact .inr ⟨tok, by simp⟩

/-- Witness for `C5_exactly_one_login`: a fresh client (no cached token)
fetching the session status. -/
theorem C5_exactly_one_login_witness :
    ((client_get envLoginOk 0 sampleCfg initState "/session/status"
        SessionResponseData.model_validate none true).2.trace =
        initState.trace ++ [loginRequest sampleCfg] ∨
      ∃ tok, (client_get envLoginOk 0 sampleCfg initState "/session/status"
        SessionResponseData.model_validate none true).2.trace =
        initState.trace ++
          [loginRequest sampleCfg,
           getRequest sampleCfg "/session/status" none tok]) ∧
    (loginRequest sampleCfg).authorization = none ∧
    (loginRequest sampleCfg).is_post = true ∧
    ∀ tok, (getRequest sampleCfg "/session/status" none tok).is_post
      = false :=
  C5_exactly_one_login envLoginOk 0 sampleCfg initState "/session/status"
    SessionResponseData.model_validate none rfl

/-! ## Claim C10 -/

/-- C10: no endpoint method other than the login path inspects the
envelope's `success` flag — a non-login endpoint call (any `_get` or
`_post`, here run on the cached-token path) whose HTTP status is below 400
and whose body validates returns the envelope to the caller as-is, with no
error raised, even when `success=false`. -/
theorem C10_envelope_returned_as_is {α : Type} (env : Env) (now : Int)
    (cfg : PonikaConfig) (st : ClientState) (endpoint : String)
    (dm : Json → Except Unit α) (params : Option (List (String × Json)))
    (a : Token) (j : Json) (r : ApiResponse α)
    (ha : st.auth = some a) (hv : now < a.expires_at)
    (hb : (env st.nreq).body = some j) (hs : (env st.nreq).status < 400)
    (hval : ApiResponse.model_validate dm j = .ok r)
    (hfail : r.success = false) :
    (client_get env now cfg st endpoint dm params true).1 = .ok r ∧
    (client_post env now cfg st endpoint dm params true).1 = .ok r := by
  constructor
  · rw [client_get_hit env now cfg st endpoint dm params a ha hv,
        getWithToken_result_ok env cfg st endpoint dm params _ j hb hs]
    unfold validateBody
    rw [hval]
  · rw [client_post_hit env now cfg st endpoint dm params a ha hv,
        postWithToken_result_ok env cfg st endpoint dm params _ j hb hs]
    unfold validateBody
    rw [hval]

/-- Witness for `C10_envelope_returned_as_is`: a session-status reply with
`success=false` and payload `{"active": false}` is handed back unchanged. -/
theorem C10_envelope_returned_as_is_witness :
    (client_get envSessionFail 0 sampleCfg stateWithToken "/session/status"
        SessionResponseData.model_validate none true).1 =
      .ok ⟨false, some ⟨false⟩⟩ ∧
    (client_post envSessionFail 0 sampleCfg stateWithToken "/session/status"
        SessionResponseData.model_validate none true).1 =
      .ok ⟨false, some ⟨false⟩⟩ :=
  C10_envelope_returned_as_is envSessionFail 0 sampleCfg stateWithToken
    "/session/status" SessionResponseData.model_validate none
    ⟨"TOK", 100⟩ sessionFailBody ⟨false, some ⟨false⟩⟩
    rfl (by decide) rfl (by decide) rfl rfl

/-! ## Claim C1 -/

/-- C1 fails on the code: with a fresh client, a login reply of
`{"success": false, "data": null}` makes `get_auth_token` return none, yet
the session-status request is still issued — without an `Authorization`
header — and the call completes normally with the device's reply, instead
of failing with an authentication failure. -/
theorem C1_counterexample :
    (SessionEndpoint.get_status envLoginRejected 0 sampleCfg initState).1 =
      .ok ⟨true, some ⟨true⟩⟩ ∧
    (SessionEndpoint.get_status envLoginRejected 0 sampleCfg
        initState).2.trace =
      [loginRequest sampleCfg,
       getRequest sampleCfg "/session/status" none none] ∧
    (getRequest sampleCfg "/session/status" none none).authorization =
      none :=
  ⟨rfl, rfl, rfl⟩

/-- C1 amended: when the login triggered by the token lookup returns an
envelope with `success=false`, `get_auth_token` returns none and the cache
moves to Empty, and the endpoint's HTTP request is then sent anyway,
without an `Authorization` header — the call proceeds unauthenticated
instead of failing with an authentication failure. -/
theorem C1_amended_unauthenticated_send {α : Type} (env : Env) (now : Int)
    (cfg : PonikaConfig) (st : ClientState) (endpoint : String)
    (dm : Json → Except Unit α) (params : Option (List (String × Json)))
    (r : ApiResponse LoginResponseData) (st1 : ClientState)
    (hmiss : cacheHit st now = false)
    (hlogin : login env cfg st cfg.username cfg.password = (.ok r, st1))
    (hfail : r.success = false) :
    get_auth_token env now cfg st = (.ok none, { st1 with auth := none }) ∧
    (client_get env now cfg st endpoint dm params true).2.trace =
      st.trace ++ [loginRequest cfg, getRequest cfg endpoint params none] ∧
    (getRequest cfg endpoint params none).authorization = none := by
  have hmiss' : cacheHit st now = false := hmiss
  have hrefresh := refresh_auth_envelope_fail env now cfg st r st1 hlogin
    (.inl hfail)
  have hget : get_auth_token env now cfg st =
      (.ok none, { st1 with auth := none }) := by
    rw [get_auth_token_miss env now cfg st hmiss', hrefresh]
  refine ⟨hget, ?_, rfl⟩
  have hst1 := login_state env cfg st
  rw [hlogin] at hst1
  simp only at hst1
  rw [client_get_miss env now cfg st endpoint dm params hmiss', hrefresh]
  dsimp only
  rw [getWithToken_state]
  simp [hst1]

/-- Witness for `C1_amended_unauthenticated_send` on the concrete rejected
login environment. -/
theorem C1_amended_unauthenticated_send_witness :
    get_auth_token envLoginRejected 0 sampleCfg initState =
      (.ok none, ⟨none, [loginRequest sampleCfg], 1⟩) ∧
    (client_get envLoginRejected 0 sampleCfg initState "/session/status"
        SessionResponseData.model_validate none true).2.trace =
      initState.trace ++
        [loginRequest sampleCfg,
         getRequest sampleCfg "/session/status" none none] ∧
    (getRequest sampleCfg "/session/status" none none).authorization =
      none :=
  C1_amended_unauthenticated_send envLoginRejected 0 sampleCfg initState
    "/session/status" SessionResponseData.model_validate none
    ⟨false, none⟩ ⟨none, [loginRequest sampleCfg], 1⟩ rfl rfl rfl

/-! ## Claim C2 -/

/-- C2 is right about the intent but the code has a stray debug
`print(response.json())` in `_get`, executed before `raise_for_status()`:
a GET whose reply is status 404 with a non-JSON body raises the JSON
decode error from that print instead of the HTTP error carrying 404
(`_post` behaves as the claim says). -/
theorem C2_get_decodes_body_before_status_check :
    (SessionEndpoint.get_status envHtml404 0 sampleCfg stateWithToken).1 =
      .error .jsonDecodeError ∧
    (Except.error PonikaError.jsonDecodeError :
        Except PonikaError (ApiResponse SessionResponseData)) ≠
      .error (.httpError 404) := by
  refine ⟨rfl, fun h => ?_⟩
  exact absurd (Except.error.inj h) (by decide)

/-! ## Claim C3 -/

/-- C3 fails on the code: on a cache miss where the login raises (here an
HTTP 500), the exception propagates out of `get_auth_token` — it does not
return none — and the cache keeps its stale token instead of moving to
Empty. -/
theorem C3_counterexample :
    (get_auth_token envServerError 20 sampleCfg stateStale).1 =
      .error (.httpError 500) ∧
    (get_auth_token envServerError 20 sampleCfg stateStale).2.auth =
      some ⟨"OLD", 10⟩ ∧
    stateStale.auth = some ⟨"OLD", 10⟩ :=
  ⟨rfl, rfl, rfl⟩

/-- C3 amended: on a cache miss, only an envelope-level login failure
(`success=false` or no data) moves the cache to Empty with
`get_auth_token` returning none; an HTTP or validation error from the
login propagates as an exception and leaves the cache unchanged. -/
theorem C3_amended_failure_handling (env : Env) (now : Int)
    (cfg : PonikaConfig) (st : ClientState)
    (hmiss : cacheHit st now = false) :
    (∀ e st1, login env cfg st cfg.username cfg.password = (.error e, st1) →
      get_auth_token env now cfg st = (.error e, st1) ∧
        st1.auth = st.auth) ∧
    (∀ r st1, login env cfg st cfg.username cfg.password = (.ok r, st1) →
      (r.success = false ∨ r.data = none) →
      get_auth_token env now cfg st =
        (.ok none, { st1 with auth := none })) := by
  constructor
  · intro e st1 hl
    refine ⟨?_, ?_⟩
    · rw [get_auth_token_miss env now cfg st hmiss,
          refresh_auth_error env now cfg st e st1 hl]
    · have := login_auth env cfg st cfg.username cfg.password
      rw [hl] at this
      exact this
  · intro r st1 hl hfail
    rw [get_auth_token_miss env now cfg st hmiss,
        refresh_auth_envelope_fail env now cfg st r st1 hl hfail]

/-- Witness for `C3_amended_failure_handling`: the stale-token client
against the 500-error environment. -/
theorem C3_amended_failure_handling_witness :
    get_auth_token envServerError 20 sampleCfg stateStale =
      (.error (.httpError 500),
        ⟨some ⟨"OLD", 10⟩, [loginRequest sampleCfg], 1⟩) ∧
    (⟨some ⟨"OLD", 10⟩, [loginRequest sampleCfg], 1⟩ :
      ClientState).auth = stateStale.auth :=
  (C3_amended_failure_handling envServerError 20 sampleCfg stateStale
    rfl).1 (.httpError 500)
    ⟨some ⟨"OLD", 10⟩, [loginRequest sampleCfg], 1⟩ rfl

/-! ## Claim C4 -/

/-- C4 fails at the expiry boundary: with token `"T1"` cached until 3600
(a login with `expires=3600` at `t0 = 0`), a call at exactly `now = 3600`
— "at expiry" — does not use the cache: a second login is performed (a
request is issued, and the cache and returned token are the fresh
`"T2"`). -/
theorem C4_counterexample :
    stateT1.auth = some ⟨"T1", 3600⟩ ∧
    (get_auth_token envLoginT2 3600 sampleCfg stateT1).1 =
      .ok (some "T2") ∧
    (get_auth_token envLoginT2 3600 sampleCfg stateT1).2 =
      ⟨some ⟨"T2", 7200⟩, [loginRequest sampleCfg], 1⟩ :=
  ⟨rfl, rfl, rfl⟩

/-- C4 amended: a cached token is used, with no network request, exactly
when `now < expires_at` (strictly before expiry); a successful login with
`expires=3600` performed on a cache miss at time `t0` caches a token with
`expires_at = t0 + 3600`; and a call at any `now ≥ expires_at` — in
particular at `t0+3600`, and so also at `t0+3600+1` — misses the cache and
issues a second login request. -/
theorem C4_amended_expiry_boundary (env : Env) (cfg : PonikaConfig) :
    (∀ (now : Int) (st : ClientState) (a : Token), st.auth = some a →
      now < a.expires_at →
      get_auth_token env now cfg st = (.ok (some a.token), st)) ∧
    (∀ (t0 : Int) (st : ClientState) (r : ApiResponse LoginResponseData)
      (st1 : ClientState) (d : LoginResponseData), cacheHit st t0 = false →
      login env cfg st cfg.username cfg.password = (.ok r, st1) →
      r.success = true → r.data = some d → d.expires = 3600 →
      (get_auth_token env t0 cfg st).2.auth =
        some ⟨d.token, t0 + 3600⟩) ∧
    (∀ (now : Int) (st : ClientState) (a : Token), st.auth = some a →
      a.expires_at ≤ now →
      (get_auth_token env now cfg st).2.trace =
        st.trace ++ [loginRequest cfg]) := by
  refine ⟨?_, ?_, ?_⟩
  · intro now st a ha hv
    exact get_auth_token_hit env now cfg st a ha hv
  · intro t0 st r st1 d hmiss hl hs hd hexp
    rw [get_auth_token_miss env t0 cfg st hmiss,
        refresh_auth_success env t0 cfg st r st1 d hl hs hd]
    dsimp only
    rw [hexp]
  · intro now st a ha hexp
    have hmiss : cacheHit st now = false := by
      unfold cacheHit
      rw [ha]
      simp only [decide_eq_false_iff_not]
      omega
    rw [get_auth_token_miss env now cfg st hmiss]
    obtain ⟨A, hA⟩ := refresh_auth_state env now cfg st
    rw [hA]

/-- Witness for `C4_amended_expiry_boundary`: the cached `"T1"` token is
returned unchanged at `now = 0`; at `now = 3601` (that is, `t0+3600+1` for
`t0 = 0`) the cache misses, the fresh login is cached with expiry
`3601 + 3600`, and the login request is issued. -/
theorem C4_amended_expiry_boundary_witness :
    get_auth_token envLoginT2 0 sampleCfg stateT1 =
      (.ok (some "T1"), stateT1) ∧
    (get_auth_token envLoginT2 3601 sampleCfg stateT1).2.auth =
      some ⟨"T2", 3601 + 3600⟩ ∧
    (get_auth_token envLoginT2 3601 sampleCfg stateT1).2.trace =
      stateT1.trace ++ [loginRequest sampleCfg] :=
  ⟨(C4_amended_expiry_boundary envLoginT2 sampleCfg).1 0 stateT1
      ⟨"T1", 3600⟩ rfl (by decide),
   (C4_amended_expiry_boundary envLoginT2 sampleCfg).2.1 3601 stateT1
      ⟨true, some ⟨"b", "T2", 3600⟩⟩
      ⟨some ⟨"T1", 3600⟩, [loginRequest sampleCfg], 1⟩
      ⟨"b", "T2", 3600⟩ rfl rfl rfl rfl rfl,
   (C4_amended_expiry_boundary envLoginT2 sampleCfg).2.2 3601 stateT1
      ⟨"T1", 3600⟩ rfl (by decide)⟩

/-! ## Claim C9 -/

/-- C9 fails on the code: calling `logout()` with an empty token cache
triggers the token lookup inside `_post`, whose successful login overwrites
`self.auth` — the auth field changes from `none` to a fresh token as a side
effect of the `logout()` call. -/
theorem C9_counterexample :
    initState.auth = none ∧
    (logout envLoginThenLogout 0 sampleCfg initState).2.auth =
      some ⟨"T1", 3600⟩ :=
  ⟨rfl, rfl⟩

/-- C9 amended: `logout()` issues the authenticated logout POST (bearer
header attached) and does not clear the token cache — when a valid token is
cached the auth field is left exactly unchanged; on a cache miss, however,
the token lookup embedded in the call may overwrite the cache before the
logout request is sent. -/
theorem C9_amended_logout_frame (env : Env) (now : Int)
    (cfg : PonikaConfig) (st : ClientState) (a : Token)
    (ha : st.auth = some a) (hv : now < a.expires_at)
    (hne : a.token ≠ "") :
    (logout env now cfg st).2.auth = some a ∧
    (logout env now cfg st).2.trace =
      st.trace ++ [postRequest cfg "/logout" none (some a.token)] ∧
    (postRequest cfg "/logout" none (some a.token)).authorization =
      some ("Bearer " ++ a.token) := by
  unfold logout
  rw [client_post_hit env now cfg st "/logout"
      LogoutResponseData.model_validate none a ha hv, postWithToken_state]
  refine ⟨ha, rfl, ?_⟩
  unfold postRequest bearerHeader
  dsimp only
  rw [if_neg hne]

/-- Witness for `C9_amended_logout_frame`: a client with a valid cached
token `"TOK"` logging out. -/
theorem C9_amended_logout_frame_witness :
    (logout envLoginThenLogout 0 sampleCfg stateWithToken).2.auth =
      some ⟨"TOK", 100⟩ ∧
    (logout envLoginThenLogout 0 sampleCfg stateWithToken).2.trace =
      stateWithToken.trace ++
        [postRequest sampleCfg "/logout" none (some "TOK")] ∧
    (postRequest sampleCfg "/logout" none (some "TOK")).authorization =
      some ("Bearer " ++ "TOK") :=
  C9_amended_logout_frame envLoginThenLogout 0 sampleCfg stateWithToken
    ⟨"TOK", 100⟩ rfl (by decide) (by decide)

end Ponika
